import Mathlib

/-!
Shallow embedding of the stock-data pipeline
(`scripts/fetch_stock_data.py` and the table schema created by
`dags/stock_data_pipeline.py`).

Python dynamic values that matter here are modelled explicitly:
field maps are association lists, `dict.get` with a default is
`dictGet`, the numeric conversions `float(...)` and `int(...)` are
modelled on the decimal-literal strings of the provider wire contract,
and `datetime.strptime` with the fixed format string is
`parseTimestamp?`.  The network and the database driver are outside
the program text, so they enter as explicit inputs: an `HttpResult`
per request, and failure oracles for the store connection and for each
record write.  Prices are `Rat` (the wire values are short decimal
strings, exactly representable).
-/

/-- A Python value that can appear in a time-series field map: the wire
format delivers strings, and the code path `values.get(key, 0)` can
substitute the integer `0` when a key is missing. -/
inductive PyVal where
  | vStr (s : String)
  | vInt (n : Int)
deriving DecidableEq, Repr

/-- `d.get(k, dflt)` on a Python dict modelled as an association list. -/
def dictGet (d : List (String × PyVal)) (k : String) (dflt : PyVal) : PyVal :=
  match d.find? (fun kv => kv.1 == k) with
  | some kv => kv.2
  | none => dflt

/-- `d.get(k)` on a string-valued Python dict (returns `None` when absent). -/
def mdGet (d : List (String × String)) (k : String) : Option String :=
  (d.find? (fun kv => kv.1 == k)).map (fun kv => kv.2)

/-- Digits of a numeral, most significant first, to a natural number. -/
def digitsToNat (l : List Char) : Nat :=
  l.foldl (fun a c => a * 10 + (c.toNat - 48)) 0

/-- Leading sign of a Python numeric literal. -/
def parseSign : List Char → Int × List Char
  | '-' :: rest => (-1, rest)
  | '+' :: rest => (1, rest)
  | cs => (1, cs)

/-- Unsigned decimal literal: `digits`, `digits.digits`, `digits.` or
`.digits`, with at least one digit in total.  The value is returned as
a numerator and denominator pair, `I.F` standing for
`(I * 10 ^ |F| + F) / 10 ^ |F|`. -/
def parseDecimal? (cs : List Char) : Option (Nat × Nat) :=
  let intPart := cs.takeWhile Char.isDigit
  let rest := cs.dropWhile Char.isDigit
  match rest with
  | [] =>
      if intPart.isEmpty then none else some (digitsToNat intPart, 1)
  | '.' :: fracRest =>
      let fracPart := fracRest.takeWhile Char.isDigit
      let tail := fracRest.dropWhile Char.isDigit
      if tail.isEmpty && !(intPart.isEmpty && fracPart.isEmpty) then
        some (digitsToNat intPart * 10 ^ fracPart.length +
          digitsToNat fracPart, 10 ^ fracPart.length)
      else none
  | _ => none

/-- Python `float(s)` on the decimal-literal strings of the provider
wire contract: optional sign then a decimal literal; anything else
raises `ValueError`, that is, returns `none`. -/
def parsePyFloat? (s : String) : Option Rat :=
  let p := parseSign s.toList
  (parseDecimal? p.2).map (fun q => mkRat (p.1 * (q.1 : Int)) q.2)

/-- Python `int(s)`: optional sign then one or more digits. -/
def parsePyInt? (s : String) : Option Int :=
  let p := parseSign s.toList
  if !p.2.isEmpty && p.2.all Char.isDigit then
    some (p.1 * (digitsToNat p.2 : Int))
  else none

/-- Python `float(v)` for the values `values.get` can produce: a string
is parsed, the integer default converts exactly. -/
def pyFloat? : PyVal → Option Rat
  | .vStr s => parsePyFloat? s
  | .vInt n => some (n : Rat)

/-- Python `int(v)` for the values `values.get` can produce. -/
def pyInt? : PyVal → Option Int
  | .vStr s => parsePyInt? s
  | .vInt n => some n

/-- A calendar timestamp at second precision, as produced by
`datetime.strptime(ts, "%Y-%m-%d %H:%M:%S")`. -/
structure Timestamp where
  year : Nat
  month : Nat
  day : Nat
  hour : Nat
  minute : Nat
  second : Nat
deriving DecidableEq, Repr

/-- Length of a month, with the Gregorian leap rule, as `datetime`
validates it. -/
def daysInMonth (y m : Nat) : Nat :=
  if m = 2 then
    if (y % 4 = 0 && y % 100 != 0) || y % 400 = 0 then 29 else 28
  else if m = 4 || m = 6 || m = 9 || m = 11 then 30
  else 31

/-- `datetime.strptime(s, "%Y-%m-%d %H:%M:%S")`: the fixed wire format,
with `datetime` range validation; a failure raises `ValueError`,
modelled as `none`. -/
def parseTimestamp? (s : String) : Option Timestamp :=
  match s.toList with
  | [y1, y2, y3, y4, '-', m1, m2, '-', d1, d2, ' ',
     h1, h2, ':', n1, n2, ':', c1, c2] =>
      if [y1, y2, y3, y4, m1, m2, d1, d2, h1, h2, n1, n2, c1, c2].all
          Char.isDigit then
        let y := digitsToNat [y1, y2, y3, y4]
        let mo := digitsToNat [m1, m2]
        let d := digitsToNat [d1, d2]
        let h := digitsToNat [h1, h2]
        let mi := digitsToNat [n1, n2]
        let se := digitsToNat [c1, c2]
        if 1 ≤ y && 1 ≤ mo && mo ≤ 12 && 1 ≤ d && d ≤ daysInMonth y mo &&
            h ≤ 23 && mi ≤ 59 && se ≤ 59 then
          some ⟨y, mo, d, h, mi, se⟩
        else none
      else none
  | _ => none

/-- One normalized price record, the dict built inside
`parse_stock_data` (keys `symbol`, `timestamp`, `open_price`, ...). -/
structure DataPoint where
  symbol : String
  timestamp : Timestamp
  open_price : Rat
  high_price : Rat
  low_price : Rat
  close_price : Rat
  volume : Int
  last_refreshed : Option String
  time_zone : Option String
deriving DecidableEq, Repr

/-- The body of the per-entry `try` block of `parse_stock_data`: build
the record from one time-series entry; if the timestamp or any numeric
conversion raises (`ValueError`/`TypeError`), the entry yields nothing
and the loop continues. -/
def parseDataPoint (symbol : String) (metadata : List (String × String))
    (timestamp : String) (values : List (String × PyVal)) :
    Option DataPoint :=
  match parseTimestamp? timestamp,
        pyFloat? (dictGet values "1. open" (.vInt 0)),
        pyFloat? (dictGet values "2. high" (.vInt 0)),
        pyFloat? (dictGet values "3. low" (.vInt 0)),
        pyFloat? (dictGet values "4. close" (.vInt 0)),
        pyInt? (dictGet values "5. volume" (.vInt 0)) with
  | some ts, some o, some h, some l, some c, some v =>
      some { symbol := symbol, timestamp := ts, open_price := o,
             high_price := h, low_price := l, close_price := c,
             volume := v,
             last_refreshed := mdGet metadata "3. Last Refreshed",
             time_zone := mdGet metadata "5. Time Zone" }
  | _, _, _, _, _, _ => none

/-- A decoded JSON response body, restricted to the four top-level keys
the code inspects: `Error Message`, `Note`, `Time Series (60min)`,
`Meta Data`.  `Option` is key presence. -/
structure RawData where
  errorMessage : Option String
  note : Option String
  timeSeries : Option (List (String × List (String × PyVal)))
  metaData : Option (List (String × String))
deriving Repr

/-- `parse_stock_data(self, symbol, raw_data)`: iterate the time-series
mapping in order, keeping the entries whose fields all convert. -/
def parse_stock_data (symbol : String) (raw_data : RawData) :
    List DataPoint :=
  let time_series := raw_data.timeSeries.getD []
  let metadata := raw_data.metaData.getD []
  time_series.filterMap (fun e => parseDataPoint symbol metadata e.1 e.2)

/-- The outcome of the HTTP request plus JSON decode, the two effects of
`fetch_stock_data` that happen outside the program text: a
`requests` transport failure (connection error, timeout, or
`raise_for_status` on a non-2xx status), a `ValueError` from
`response.json()`, or a decoded body. -/
inductive HttpResult where
  | transportError
  | decodeError
  | ok (data : RawData)

/-- `fetch_stock_data(self, symbol)` given the outcome of its request:
both exception classes are caught and return `None`; a decoded body
carrying an `Error Message` or a `Note` key also returns `None`. -/
def fetch_stock_data (resp : HttpResult) : Option RawData :=
  match resp with
  | .transportError => none
  | .decodeError => none
  | .ok data =>
      if data.errorMessage.isSome then none
      else if data.note.isSome then none
      else some data

/-- One row of the `stock_data` table, with the columns created by the
DAG's `CREATE TABLE`: the observation fields plus `created_at`
(defaulted to the current time on insert, never updated). -/
structure StoredRow where
  symbol : String
  timestamp : Timestamp
  open_price : Rat
  high_price : Rat
  low_price : Rat
  close_price : Rat
  volume : Int
  last_refreshed : Option String
  time_zone : Option String
  created_at : Nat
deriving DecidableEq, Repr

/-- Whether a row carries the primary key `(symbol, timestamp)`. -/
def rowKeyMatches (row : StoredRow) (s : String) (ts : Timestamp) : Bool :=
  row.symbol == s && row.timestamp == ts

/-- The table row a fresh insert creates for a record, with
`created_at` set to the insert time `now`. -/
def insertedRow (r : DataPoint) (now : Nat) : StoredRow :=
  { symbol := r.symbol, timestamp := r.timestamp,
    open_price := r.open_price, high_price := r.high_price,
    low_price := r.low_price, close_price := r.close_price,
    volume := r.volume, last_refreshed := r.last_refreshed,
    time_zone := r.time_zone, created_at := now }

/-- One execution of the `INSERT ... ON CONFLICT (symbol, timestamp) DO
UPDATE` statement against a table state: on conflict the price, volume
and `last_refreshed` columns take the excluded values while `time_zone`
and `created_at` keep their stored values; otherwise a full row is
appended. -/
def upsertRow (t : List StoredRow) (now : Nat) (r : DataPoint) :
    List StoredRow :=
  if t.any (fun row => rowKeyMatches row r.symbol r.timestamp) then
    t.map (fun row =>
      if rowKeyMatches row r.symbol r.timestamp then
        { row with
          open_price := r.open_price,
          high_price := r.high_price,
          low_price := r.low_price,
          close_price := r.close_price,
          volume := r.volume,
          last_refreshed := r.last_refreshed }
      else row)
  else t ++ [insertedRow r now]

/-- The `cursor.execute` loop of `store_data` inside its transaction:
each statement may raise (connectivity loss, schema violation), which
aborts the loop before `conn.commit()`; `none` is that abort, `some`
is the table state the commit would publish. -/
def runBatch (execFails : DataPoint → Bool) (now : Nat)
    (t : List StoredRow) : List DataPoint → Option (List StoredRow)
  | [] => some t
  | r :: rs =>
      if execFails r then none
      else runBatch execFails now (upsertRow t now r) rs

/-- `store_data(self, data)` against a table state `t`.  `connFails`
models `get_conn`/`cursor` raising before any write; `execFails` models
a given record's statement raising.  An empty batch returns `False`
untouched; any exception is caught, the transaction never commits, and
`False` is returned; otherwise the whole batch commits and `True` is
returned. -/
def store_data (connFails : Bool) (execFails : DataPoint → Bool)
    (t : List StoredRow) (now : Nat) (data : List DataPoint) :
    List StoredRow × Bool :=
  if data.isEmpty then (t, false)
  else if connFails then (t, false)
  else
    match runBatch execFails now t data with
    | some t2 => (t2, true)
    | none => (t, false)

/-- `symbol.strip().upper()` on the ASCII ticker strings of the
configuration: whitespace dropped at both ends, every character
uppercased.  Written over the character list, which the library
`String.trim`/`String.toUpper` (byte-position recursion) are not. -/
def normalizeSymbol (s : String) : String :=
  ⟨(((s.data.dropWhile Char.isWhitespace).reverse.dropWhile
      Char.isWhitespace).reverse).map Char.toUpper⟩

/-- The world one run executes against: the HTTP outcome for each
(normalized) symbol, and the store failure oracles for the batch each
symbol stores. -/
structure Env where
  net : String → HttpResult
  connFails : String → Bool
  execFails : String → DataPoint → Bool

/-- The mutable loop state of `fetch_and_process_stock_data`: the table
behind the store, the two counters, and (for observability) the
normalized symbols a network call was issued for, in order. -/
structure RunState where
  table : List StoredRow
  successful_symbols : Nat
  total_records : Nat
  fetched : List String

/-- One iteration of the symbol loop of `fetch_and_process_stock_data`:
normalize the symbol, skip it when empty, fetch, and only on data
parse, and only on records store; the store success increments the
counters. -/
def processSymbol (env : Env) (now : Nat) (st : RunState)
    (rawSymbol : String) : RunState :=
  let symbol := normalizeSymbol rawSymbol
  if symbol = "" then st
  else
    let st1 : RunState := { st with fetched := st.fetched ++ [symbol] }
    match fetch_stock_data (env.net symbol) with
    | none => st1
    | some raw =>
        let parsed := parse_stock_data symbol raw
        if parsed.isEmpty then st1
        else
          let res := store_data (env.connFails symbol)
            (env.execFails symbol) st1.table now parsed
          if res.2 then
            { st1 with
              table := res.1,
              successful_symbols := st1.successful_symbols + 1,
              total_records := st1.total_records + parsed.length }
          else { st1 with table := res.1 }

/-- What one run reports and leaves behind.  `gated` is the early
return on a missing or placeholder API key (in which case no summary
line is emitted and the counts are all zero); `attempted` is the
`len(symbols)` figure of the final summary log line. -/
structure RunResult where
  gated : Bool
  attempted : Nat
  successful_symbols : Nat
  total_records : Nat
  fetched : List String
  table : List StoredRow

/-- `fetch_and_process_stock_data(api_key, symbols)` over an initial
table state `t0`: the credential gate, then the symbol loop, then the
summary counts. -/
def fetch_and_process_stock_data (env : Env) (now : Nat)
    (t0 : List StoredRow) (api_key : String) (symbols : List String) :
    RunResult :=
  if api_key = "" || api_key == "your_alpha_vantage_api_key_here" then
    { gated := true, attempted := 0, successful_symbols := 0,
      total_records := 0, fetched := [], table := t0 }
  else
    let finalSt := symbols.foldl (processSymbol env now)
      { table := t0, successful_symbols := 0, total_records := 0,
        fetched := [] }
    { gated := false, attempted := symbols.length,
      successful_symbols := finalSt.successful_symbols,
      total_records := finalSt.total_records,
      fetched := finalSt.fetched, table := finalSt.table }

/-- Whether one symbol, processed in isolation against the world `env`,
reaches a successful store call: non-empty after normalization, a
fetched body, at least one parsed record, and a batch whose
transaction commits. -/
def symbolSucceeds (env : Env) (rawSymbol : String) : Bool :=
  let symbol := normalizeSymbol rawSymbol
  if symbol = "" then false
  else
    match fetch_stock_data (env.net symbol) with
    | none => false
    | some raw =>
        let parsed := parse_stock_data symbol raw
        if parsed.isEmpty then false
        else !env.connFails symbol &&
          parsed.all (fun r => !env.execFails symbol r)

/-- The record count one symbol contributes to the run total: the
length of its parsed batch when its store call succeeds, zero
otherwise. -/
def symbolRecords (env : Env) (rawSymbol : String) : Nat :=
  let symbol := normalizeSymbol rawSymbol
  match fetch_stock_data (env.net symbol) with
  | none => 0
  | some raw =>
      if symbolSucceeds env rawSymbol then
        (parse_stock_data symbol raw).length
      else 0

/-- All five required numeric conversions of one time-series field map
succeed (on the value `values.get` hands them, default included). -/
def requiredFieldsParse (values : List (String × PyVal)) : Bool :=
  (pyFloat? (dictGet values "1. open" (.vInt 0))).isSome &&
  (pyFloat? (dictGet values "2. high" (.vInt 0))).isSome &&
  (pyFloat? (dictGet values "3. low" (.vInt 0))).isSome &&
  (pyFloat? (dictGet values "4. close" (.vInt 0))).isSome &&
  (pyInt? (dictGet values "5. volume" (.vInt 0))).isSome

/-- A time-series entry is well formed: its timestamp is in the wire
format and every required numeric field converts. -/
def entryWellFormed (e : String × List (String × PyVal)) : Bool :=
  (parseTimestamp? e.1).isSome && requiredFieldsParse e.2

/-- The row left for a key after an insert of `dp1` at time `now1`
followed by a conflicting upsert of `dp2`: the second write's prices,
volume and `last_refreshed`, the first write's `time_zone` and
`created_at`. -/
def mergedRow (dp1 dp2 : DataPoint) (now1 : Nat) : StoredRow :=
  { symbol := dp1.symbol, timestamp := dp1.timestamp,
    open_price := dp2.open_price, high_price := dp2.high_price,
    low_price := dp2.low_price, close_price := dp2.close_price,
    volume := dp2.volume, last_refreshed := dp2.last_refreshed,
    time_zone := dp1.time_zone, created_at := now1 }

/-- Sample metadata section as the provider sends it. -/
def mdSample : List (String × String) :=
  [("3. Last Refreshed", "2024-01-02 16:00:00"),
   ("5. Time Zone", "US/Eastern")]

/-- A fully well-formed field map. -/
def valsGoodA : List (String × PyVal) :=
  [("1. open", .vStr "150"), ("2. high", .vStr "152.5"),
   ("3. low", .vStr "149"), ("4. close", .vStr "151"),
   ("5. volume", .vStr "1000")]

/-- Another well-formed field map, different values. -/
def valsGoodB : List (String × PyVal) :=
  [("1. open", .vStr "151"), ("2. high", .vStr "153"),
   ("3. low", .vStr "150"), ("4. close", .vStr "152"),
   ("5. volume", .vStr "2000")]

/-- A field map whose open field is present but not numeric. -/
def valsBadOpen : List (String × PyVal) :=
  [("1. open", .vStr "abc"), ("2. high", .vStr "152.5"),
   ("3. low", .vStr "149"), ("4. close", .vStr "151"),
   ("5. volume", .vStr "1000")]

/-- A field map with the open field missing entirely. -/
def valsNoOpen : List (String × PyVal) :=
  [("2. high", .vStr "152.5"), ("3. low", .vStr "149"),
   ("4. close", .vStr "151"), ("5. volume", .vStr "1000")]

/-- A response whose single data point is missing its open field. -/
def rawMissingOpen : RawData :=
  { errorMessage := none, note := none,
    timeSeries := some [("2024-01-02 10:00:00", valsNoOpen)],
    metaData := some mdSample }

/-- The observation the code builds from `rawMissingOpen`: the absent
open field was defaulted to the number zero. -/
def dpZeroOpen : DataPoint :=
  { symbol := "AAPL", timestamp := ⟨2024, 1, 2, 10, 0, 0⟩,
    open_price := 0, high_price := mkRat 305 2, low_price := 149,
    close_price := 151, volume := 1000,
    last_refreshed := some "2024-01-02 16:00:00",
    time_zone := some "US/Eastern" }

/-- A response with a metadata section and one well-formed entry. -/
def rawGood : RawData :=
  { errorMessage := none, note := none,
    timeSeries := some [("2024-01-02 10:00:00", valsGoodA)],
    metaData := some mdSample }

/-- A response with three entries of which exactly one has a
non-numeric price field. -/
def rawOneBad : RawData :=
  { errorMessage := none, note := none,
    timeSeries := some
      [("2024-01-02 10:00:00", valsGoodA),
       ("2024-01-02 11:00:00", valsBadOpen),
       ("2024-01-02 12:00:00", valsGoodB)],
    metaData := some mdSample }

/-- A response with a well-formed time series but no metadata section. -/
def rawNoMeta : RawData :=
  { errorMessage := none, note := none,
    timeSeries := some [("2024-01-02 10:00:00", valsGoodA)],
    metaData := none }

/-- A response with no time-series section. -/
def rawNoSeries : RawData :=
  { errorMessage := none, note := none, timeSeries := none,
    metaData := some mdSample }

/-- A decoded body carrying a rate-limit note AND a complete
well-formed time series next to it. -/
def rawNoteWithData : RawData :=
  { errorMessage := none,
    note := some "Thank you for using Alpha Vantage! Our standard API call frequency is 5 calls per minute.",
    timeSeries := some [("2024-01-02 10:00:00", valsGoodA)],
    metaData := some mdSample }

/-- A world where only AAPL answers with data and every other symbol
hits a transport failure; the store never fails. -/
def envW : Env :=
  { net := fun s => if s == "AAPL" then .ok rawGood else .transportError,
    connFails := fun _ => false,
    execFails := fun _ _ => false }

/-- A world where every request is answered by the rate-limit body. -/
def envNote : Env :=
  { net := fun _ => .ok rawNoteWithData,
    connFails := fun _ => false,
    execFails := fun _ _ => false }

/-- First write for the upsert scenario. -/
def dpW1 : DataPoint :=
  { symbol := "AAPL", timestamp := ⟨2024, 1, 2, 10, 0, 0⟩,
    open_price := 150, high_price := mkRat 305 2, low_price := 149,
    close_price := 151, volume := 1000,
    last_refreshed := some "2024-01-02 16:00:00",
    time_zone := some "US/Eastern" }

/-- Second write for the upsert scenario: the same key as `dpW1` with
different prices, volume and refresh marker. -/
def dpW2 : DataPoint :=
  { symbol := "AAPL", timestamp := ⟨2024, 1, 2, 10, 0, 0⟩,
    open_price := 151, high_price := 154, low_price := 150,
    close_price := 153, volume := 2000,
    last_refreshed := some "2024-01-03 16:00:00",
    time_zone := some "US/Eastern" }

/-- The observation parsed out of `rawNoMeta`: the metadata fields are
absent, the price fields are all there. -/
def dpNoMeta : DataPoint :=
  { symbol := "AAPL", timestamp := ⟨2024, 1, 2, 10, 0, 0⟩,
    open_price := 150, high_price := mkRat 305 2, low_price := 149,
    close_price := 151, volume := 1000,
    last_refreshed := none, time_zone := none }

theorem parseDataPoint_isSome (s : String) (md : List (String × String))
    (t : String) (v : List (String × PyVal)) :
    (parseDataPoint s md t v).isSome = entryWellFormed (t, v) := by
  cases h1 : parseTimestamp? t <;>
    cases h2 : pyFloat? (dictGet v "1. open" (.vInt 0)) <;>
    cases h3 : pyFloat? (dictGet v "2. high" (.vInt 0)) <;>
    cases h4 : pyFloat? (dictGet v "3. low" (.vInt 0)) <;>
    cases h5 : pyFloat? (dictGet v "4. close" (.vInt 0)) <;>
    cases h6 : pyInt? (dictGet v "5. volume" (.vInt 0)) <;>
    simp [parseDataPoint, entryWellFormed, requiredFieldsParse,
      h1, h2, h3, h4, h5, h6]

theorem parseDataPoint_eq_none (s : String) (md : List (String × String))
    (t : String) (v : List (String × PyVal))
    (h : requiredFieldsParse v = false) :
    parseDataPoint s md t v = none := by
  have h2 := parseDataPoint_isSome s md t v
  cases hO : parseDataPoint s md t v with
  | none => rfl
  | some dp => rw [hO] at h2; simp [entryWellFormed, h] at h2

theorem runBatch_cases (f : DataPoint → Bool) (now : Nat)
    (t : List StoredRow) (data : List DataPoint) :
    runBatch f now t data =
        some (data.foldl (fun acc r => upsertRow acc now r) t) ∨
      runBatch f now t data = none := by
  induction data generalizing t with
  | nil => left; rfl
  | cons r rs ih =>
    by_cases h : f r
    · right; simp [runBatch, h]
    · rcases ih (upsertRow t now r) with h2 | h2
      · left; simp [runBatch, h, h2]
      · right; simp [runBatch, h, h2]

theorem runBatch_isSome (f : DataPoint → Bool) (now : Nat)
    (t : List StoredRow) (data : List DataPoint) :
    (runBatch f now t data).isSome = data.all (fun r => !f r) := by
  induction data generalizing t with
  | nil => rfl
  | cons r rs ih => by_cases h : f r <;> simp [runBatch, h, ih]

theorem store_data_snd (c : Bool) (f : DataPoint → Bool)
    (t : List StoredRow) (now : Nat) (data : List DataPoint) :
    (store_data c f t now data).2 =
      (!data.isEmpty && !c && data.all (fun r => !f r)) := by
  unfold store_data
  by_cases hd : data.isEmpty
  · simp [hd]
  · by_cases hc : c
    · simp [hd, hc]
    · have hiso := runBatch_isSome f now t data
      cases hR : runBatch f now t data with
      | none => rw [hR] at hiso; simp [hd, hc, hR, ← hiso]
      | some t2 => rw [hR] at hiso; simp [hd, hc, hR, ← hiso]

theorem processSymbol_succ (env : Env) (now : Nat) (st : RunState)
    (s : String) :
    (processSymbol env now st s).successful_symbols =
      st.successful_symbols + (if symbolSucceeds env s then 1 else 0) := by
  unfold processSymbol symbolSucceeds
  by_cases hs : normalizeSymbol s = ""
  · simp [hs]
  · cases hf : fetch_stock_data (env.net (normalizeSymbol s)) with
    | none => simp [hs, hf]
    | some raw =>
      by_cases hp : (parse_stock_data (normalizeSymbol s) raw).isEmpty
      · simp [hs, hf, hp]
      · have hsnd := store_data_snd (env.connFails (normalizeSymbol s))
          (env.execFails (normalizeSymbol s)) st.table now
          (parse_stock_data (normalizeSymbol s) raw)
        by_cases hok : (!env.connFails (normalizeSymbol s) &&
            (parse_stock_data (normalizeSymbol s) raw).all
              (fun r => !env.execFails (normalizeSymbol s) r)) = true
        · simp [hs, hf, hp, hsnd, hok]
        · simp [hs, hf, hp, hsnd, hok]

theorem processSymbol_records (env : Env) (now : Nat) (st : RunState)
    (s : String) :
    (processSymbol env now st s).total_records =
      st.total_records + symbolRecords env s := by
  unfold processSymbol symbolRecords symbolSucceeds
  by_cases hs : normalizeSymbol s = ""
  · cases hf : fetch_stock_data (env.net "") with
    | none => simp [hs, hf]
    | some raw => simp [hs, hf]
  · cases hf : fetch_stock_data (env.net (normalizeSymbol s)) with
    | none => simp [hs, hf]
    | some raw =>
      by_cases hp : (parse_stock_data (normalizeSymbol s) raw).isEmpty
      · simp [hs, hf, hp]
      · have hsnd := store_data_snd (env.connFails (normalizeSymbol s))
          (env.execFails (normalizeSymbol s)) st.table now
          (parse_stock_data (normalizeSymbol s) raw)
        by_cases hok : (!env.connFails (normalizeSymbol s) &&
            (parse_stock_data (normalizeSymbol s) raw).all
              (fun r => !env.execFails (normalizeSymbol s) r)) = true
        · simp [hs, hf, hp, hsnd, hok]
        · simp [hs, hf, hp, hsnd, hok]

theorem processSymbol_fetched (env : Env) (now : Nat) (st : RunState)
    (s : String) :
    (processSymbol env now st s).fetched =
      st.fetched ++
        (if normalizeSymbol s = "" then [] else [normalizeSymbol s]) := by
  unfold processSymbol
  by_cases hs : normalizeSymbol s = ""
  · simp [hs]
  · cases hf : fetch_stock_data (env.net (normalizeSymbol s)) with
    | none => simp [hs, hf]
    | some raw =>
      by_cases hp : (parse_stock_data (normalizeSymbol s) raw).isEmpty
      · simp [hs, hf, hp]
      · by_cases hok : (store_data (env.connFails (normalizeSymbol s))
            (env.execFails (normalizeSymbol s)) st.table now
            (parse_stock_data (normalizeSymbol s) raw)).2 = true
        · simp [hs, hf, hp, hok]
        · simp [hs, hf, hp, hok]

theorem foldl_processSymbol_succ (env : Env) (now : Nat)
    (symbols : List String) (st : RunState) :
    (symbols.foldl (processSymbol env now) st).successful_symbols =
      st.successful_symbols +
        (symbols.map (fun s => if symbolSucceeds env s then 1 else 0)).sum := by
  induction symbols generalizing st with
  | nil => simp
  | cons a l ih =>
    simp [List.foldl_cons, ih, processSymbol_succ, Nat.add_assoc]

theorem foldl_processSymbol_records (env : Env) (now : Nat)
    (symbols : List String) (st : RunState) :
    (symbols.foldl (processSymbol env now) st).total_records =
      st.total_records + (symbols.map (fun s => symbolRecords env s)).sum := by
  induction symbols generalizing st with
  | nil => simp
  | cons a l ih =>
    simp [List.foldl_cons, ih, processSymbol_records, Nat.add_assoc]

theorem foldl_processSymbol_fetched (env : Env) (now : Nat)
    (symbols : List String) (st : RunState) :
    (symbols.foldl (processSymbol env now) st).fetched =
      st.fetched ++ symbols.filterMap (fun s =>
        if normalizeSymbol s = "" then none else some (normalizeSymbol s)) := by
  induction symbols generalizing st with
  | nil => simp
  | cons a l ih =>
    by_cases hs : normalizeSymbol a = "" <;>
      simp [List.foldl_cons, ih, processSymbol_fetched, hs]

theorem parseDataPoint_md_none (s t : String) (v : List (String × PyVal))
    (dp : DataPoint) (hdp : parseDataPoint s [] t v = some dp) :
    dp.last_refreshed = none ∧ dp.time_zone = none := by
  unfold parseDataPoint at hdp
  split at hdp
  · cases hdp; exact ⟨rfl, rfl⟩
  · cases hdp

theorem filterMap_parse_split (s : String) (md : List (String × String))
    (l : List (String × List (String × PyVal)))
    (h : ∀ e ∈ l, entryWellFormed e = true ∨ requiredFieldsParse e.2 = false) :
    (l.filterMap (fun e => parseDataPoint s md e.1 e.2)).length +
        (l.filter (fun e => !requiredFieldsParse e.2)).length = l.length ∧
    l.filterMap (fun e => parseDataPoint s md e.1 e.2) =
      (l.filter entryWellFormed).filterMap
        (fun e => parseDataPoint s md e.1 e.2) := by
  induction l with
  | nil => simp
  | cons e l ih =>
    obtain ⟨ih1, ih2⟩ := ih (fun x hx => h x (List.mem_cons_of_mem e hx))
    rcases h e (List.mem_cons_self e l) with he | he
    · have hreq : requiredFieldsParse e.2 = true := by
        have he2 := he
        unfold entryWellFormed at he2
        simp only [Bool.and_eq_true] at he2
        exact he2.2
      have hsome : (parseDataPoint s md e.1 e.2).isSome = true := by
        rw [parseDataPoint_isSome]; exact he
      obtain ⟨dp, hdp⟩ := Option.isSome_iff_exists.mp hsome
      constructor
      · simp only [List.filterMap_cons, List.filter_cons, hdp, hreq,
          Bool.not_true, List.length_cons]
        simp only [Bool.false_eq_true, if_false]
        omega
      · simp [List.filterMap_cons, List.filter_cons, hdp, he, ih2]
    · have hnone : parseDataPoint s md e.1 e.2 = none :=
        parseDataPoint_eq_none s md e.1 e.2 he
      have hwf : entryWellFormed e = false := by
        unfold entryWellFormed; rw [he]; simp
      constructor
      · simp only [List.filterMap_cons, List.filter_cons, hnone, he,
          Bool.not_false, if_true, List.length_cons]
        omega
      · simp [List.filterMap_cons, List.filter_cons, hnone, hwf, ih2]

/-- C1: the spec demands that an observation is built only when all
four price fields and the volume field are present and numeric, and
that a missing price field never yields a zero-priced observation.
The code violates this: `values.get(key, 0)` substitutes the number 0
for an absent field, so a data point missing its open field still
yields an observation whose open price is exactly 0.  At
`rawMissingOpen` (one entry, open field absent, everything else well
formed) the parser emits one observation with `open_price = 0` instead
of dropping the entry. -/
theorem parse_missing_price_defaults_zero :
    ("1. open" ∉ valsNoOpen.map Prod.fst) ∧
    parse_stock_data "AAPL" rawMissingOpen = [dpZeroOpen] ∧
    dpZeroOpen.open_price = 0 :=
  ⟨by decide, by decide, rfl⟩

/-- C5 counterexample: a response whose metadata section is absent but
whose time series is present and well formed does NOT parse to the
empty sequence — the claim fails on the code for the metadata half. -/
theorem parse_metadata_absent_cex :
    rawNoMeta.metaData = none ∧ parse_stock_data "AAPL" rawNoMeta ≠ [] :=
  ⟨rfl, by decide⟩

/-- C5 (amended): if the time-series section is absent, parse returns
the empty sequence rather than a fault; if the metadata section is
absent, parse still returns the observations of the time series — no
fault — with both metadata fields absent on every observation. -/
theorem parse_absent_sections (s : String) (raw : RawData) :
    (raw.timeSeries = none → parse_stock_data s raw = []) ∧
    (raw.metaData = none → ∀ dp ∈ parse_stock_data s raw,
      dp.last_refreshed = none ∧ dp.time_zone = none) := by
  constructor
  · intro h; simp [parse_stock_data, h]
  · intro h dp hdp
    simp only [parse_stock_data, h, Option.getD_none,
      List.mem_filterMap] at hdp
    obtain ⟨e, he, hdp⟩ := hdp
    exact parseDataPoint_md_none s e.1 e.2 dp hdp

/-- Witness for C5 (amended) at concrete inputs: `rawNoSeries` has no
time-series section and parses to nothing; `rawNoMeta` has no metadata
section and its parsed observation carries no metadata fields. -/
theorem parse_absent_sections_witness :
    parse_stock_data "AAPL" rawNoSeries = [] ∧
    dpNoMeta.last_refreshed = none ∧ dpNoMeta.time_zone = none :=
  ⟨(parse_absent_sections "AAPL" rawNoSeries).1 rfl,
   (parse_absent_sections "AAPL" rawNoMeta).2 rfl dpNoMeta (by decide)⟩

/-- C6: `fetch_stock_data` is total over the classified request
outcomes and returns `none` (never an unhandled fault) exactly on a
transport failure, an undecodable body, a body with a provider error
message, or a body with a rate-limit note; any returned body is the
decoded body itself, free of both marker keys. -/
theorem fetch_error_classification (resp : HttpResult) :
    (fetch_stock_data resp = none ↔
      resp = HttpResult.transportError ∨ resp = HttpResult.decodeError ∨
        ∃ d, resp = HttpResult.ok d ∧
          (d.errorMessage.isSome ∨ d.note.isSome)) ∧
    (∀ d, fetch_stock_data resp = some d →
      resp = HttpResult.ok d ∧ d.errorMessage = none ∧ d.note = none) := by
  cases resp with
  | transportError => simp [fetch_stock_data]
  | decodeError => simp [fetch_stock_data]
  | ok data =>
    by_cases he : data.errorMessage.isSome
    · constructor
      · simp [fetch_stock_data, he]
      · intro d hd; simp [fetch_stock_data, he] at hd
    · have he2 : data.errorMessage = none :=
        Option.not_isSome_iff_eq_none.mp he
      by_cases hn : data.note.isSome
      · constructor
        · simp [fetch_stock_data, he2, hn]
        · intro d hd; simp [fetch_stock_data, he2, hn] at hd
      · have hn2 : data.note = none := Option.not_isSome_iff_eq_none.mp hn
        constructor
        · simp [fetch_stock_data, he2, hn2]
        · intro d hd
          simp [fetch_stock_data, he2, hn2] at hd
          subst hd
          exact ⟨rfl, he2, hn2⟩

/-- C8: an empty or placeholder API key gates the whole run: the
result is the untouched initial table, no symbol fetched, and all
counters (attempted included) zero. -/
theorem run_credential_gate (env : Env) (now : Nat) (t0 : List StoredRow)
    (api_key : String) (symbols : List String)
    (h : api_key = "" ∨ api_key = "your_alpha_vantage_api_key_here") :
    fetch_and_process_stock_data env now t0 api_key symbols =
      { gated := true, attempted := 0, successful_symbols := 0,
        total_records := 0, fetched := [], table := t0 } := by
  rcases h with h | h <;> simp [fetch_and_process_stock_data, h]

/-- Witness for C8: the empty key gates a run over one symbol. -/
theorem run_credential_gate_witness :
    fetch_and_process_stock_data envW 0 [] "" ["AAPL"] =
      { gated := true, attempted := 0, successful_symbols := 0,
        total_records := 0, fetched := [], table := [] } :=
  run_credential_gate envW 0 [] "" ["AAPL"] (Or.inl rfl)

/-- C9: a decoded body carrying a rate-limit note makes
`fetch_stock_data` return `none` no matter what else the body carries
(in particular a complete well-formed time series is discarded), and
any symbol answered by such a body is not counted as succeeded and
contributes zero records. -/
theorem fetch_note_discards_data (d : RawData) (n : String)
    (h : d.note = some n) :
    fetch_stock_data (HttpResult.ok d) = none ∧
    ∀ (env : Env) (s : String),
      env.net (normalizeSymbol s) = HttpResult.ok d →
        symbolSucceeds env s = false ∧ symbolRecords env s = 0 := by
  have h1 : fetch_stock_data (HttpResult.ok d) = none := by
    simp [fetch_stock_data, h]
  refine ⟨h1, fun env s hs => ⟨?_, ?_⟩⟩
  · unfold symbolSucceeds
    by_cases he : normalizeSymbol s = "" <;> simp [he, hs, h1]
  · unfold symbolRecords
    by_cases he : normalizeSymbol s = ""
    · rw [he] at hs; simp [he, hs, h1]
    · simp [he, hs, h1]

/-- Witness for C9: `rawNoteWithData` carries both a note and one well
formed entry; fetched through `envNote` the symbol contributes
nothing. -/
theorem fetch_note_discards_data_witness :
    fetch_stock_data (HttpResult.ok rawNoteWithData) = none ∧
    rawNoteWithData.timeSeries ≠ none ∧
    symbolSucceeds envNote "aapl " = false ∧
    symbolRecords envNote "aapl " = 0 :=
  ⟨(fetch_note_discards_data rawNoteWithData _ rfl).1,
   by decide,
   ((fetch_note_discards_data rawNoteWithData _ rfl).2 envNote "aapl " rfl).1,
   ((fetch_note_discards_data rawNoteWithData _ rfl).2 envNote "aapl " rfl).2⟩

/-- C2: writing `dp1` and then `dp2` with the same
`(symbol, timestamp)` key into a table with no row for that key leaves
exactly one row for the key — never a duplicate — carrying the second
write's prices, volume and `last_refreshed` together with the first
write's `created_at` marker (and its `time_zone`). -/
theorem store_upsert_no_duplicate (t0 : List StoredRow)
    (dp1 dp2 : DataPoint) (now1 now2 : Nat)
    (hsym : dp2.symbol = dp1.symbol) (hts : dp2.timestamp = dp1.timestamp)
    (h0 : ∀ row ∈ t0, rowKeyMatches row dp1.symbol dp1.timestamp = false) :
    store_data false (fun _ => false) t0 now1 [dp1] =
      (t0 ++ [insertedRow dp1 now1], true) ∧
    store_data false (fun _ => false)
        (t0 ++ [insertedRow dp1 now1]) now2 [dp2] =
      (t0 ++ [mergedRow dp1 dp2 now1], true) ∧
    (t0 ++ [mergedRow dp1 dp2 now1]).filter
        (fun row => rowKeyMatches row dp1.symbol dp1.timestamp) =
      [mergedRow dp1 dp2 now1] := by
  have hany0 : t0.any
      (fun row => rowKeyMatches row dp1.symbol dp1.timestamp) = false := by
    rw [List.any_eq_false]
    intro row hrow
    simp [h0 row hrow]
  have h1 : upsertRow t0 now1 dp1 = t0 ++ [insertedRow dp1 now1] := by
    unfold upsertRow
    simp [hany0]
  have hkey1 : rowKeyMatches (insertedRow dp1 now1) dp2.symbol
      dp2.timestamp = true := by
    simp [rowKeyMatches, insertedRow, hsym, hts]
  have h2 : upsertRow (t0 ++ [insertedRow dp1 now1]) now2 dp2 =
      t0 ++ [mergedRow dp1 dp2 now1] := by
    unfold upsertRow
    have hany : (t0 ++ [insertedRow dp1 now1]).any
        (fun row => rowKeyMatches row dp2.symbol dp2.timestamp) = true := by
      simp only [List.any_append, Bool.or_eq_true]
      right
      simp [hkey1]
    simp only [hany, if_true]
    rw [List.map_append]
    congr 1
    · have : ∀ row ∈ t0,
          (if rowKeyMatches row dp2.symbol dp2.timestamp then
            { row with
              open_price := dp2.open_price, high_price := dp2.high_price,
              low_price := dp2.low_price, close_price := dp2.close_price,
              volume := dp2.volume,
              last_refreshed := dp2.last_refreshed } else row) = row := by
        intro row hrow
        have : rowKeyMatches row dp2.symbol dp2.timestamp = false := by
          rw [hsym, hts]; exact h0 row hrow
        simp [this]
      rw [List.map_congr_left this]
      simp
    · simp only [List.map_cons, List.map_nil, hkey1]
      simp [insertedRow, mergedRow]
  have hs1 : store_data false (fun _ => false) t0 now1 [dp1] =
      (upsertRow t0 now1 dp1, true) := by
    simp [store_data, runBatch]
  have hs2 : store_data false (fun _ => false)
      (t0 ++ [insertedRow dp1 now1]) now2 [dp2] =
      (upsertRow (t0 ++ [insertedRow dp1 now1]) now2 dp2, true) := by
    simp [store_data, runBatch]
  refine ⟨by rw [hs1, h1], by rw [hs2, h2], ?_⟩
  rw [List.filter_append]
  have hnil : t0.filter
      (fun row => rowKeyMatches row dp1.symbol dp1.timestamp) = [] := by
    rw [List.filter_eq_nil_iff]
    intro row hrow
    simp [h0 row hrow]
  rw [hnil]
  simp [mergedRow, rowKeyMatches]

/-- Witness for C2: two writes with the same key into the empty table,
with different prices, volume and refresh marker. -/
theorem store_upsert_no_duplicate_witness :
    store_data false (fun _ => false) [] 1 [dpW1] =
      ([] ++ [insertedRow dpW1 1], true) ∧
    store_data false (fun _ => false) ([] ++ [insertedRow dpW1 1]) 2 [dpW2] =
      ([] ++ [mergedRow dpW1 dpW2 1], true) ∧
    ([] ++ [mergedRow dpW1 dpW2 1]).filter
        (fun row => rowKeyMatches row dpW1.symbol dpW1.timestamp) =
      [mergedRow dpW1 dpW2 1] :=
  store_upsert_no_duplicate [] dpW1 dpW2 1 2 rfl rfl (by simp)

/-- C7: a non-empty batch is atomic: either the whole batch commits
(the table becomes the fold of the upsert over every observation and
the call reports success) or the table is left exactly as it was and
the call reports a store failure. -/
theorem store_data_atomic (c : Bool) (f : DataPoint → Bool)
    (t : List StoredRow) (now : Nat) (data : List DataPoint)
    (hne : data ≠ []) :
    store_data c f t now data =
        (data.foldl (fun acc r => upsertRow acc now r) t, true) ∨
      store_data c f t now data = (t, false) := by
  have hd : data.isEmpty = false := by
    cases data with
    | nil => exact absurd rfl hne
    | cons a l => rfl
  by_cases hc : c
  · right; simp [store_data, hd, hc]
  · rcases runBatch_cases f now t data with h | h
    · left; simp [store_data, hd, hc, h]
    · right; simp [store_data, hd, hc, h]

/-- Witness for C7: a batch whose single statement raises leaves the
empty table untouched and reports failure (here the right disjunct is
the one realized). -/
theorem store_data_atomic_witness :
    store_data false (fun _ => true) [] 1 [dpW1] =
        ([dpW1].foldl (fun acc r => upsertRow acc 1 r) [], true) ∨
      store_data false (fun _ => true) [] 1 [dpW1] = ([], false) :=
  store_data_atomic false (fun _ => true) [] 1 [dpW1] (by simp)

/-- C3: when every entry of the time series is either well formed or
has a required numeric field that fails to convert, parsing yields
exactly the observations of the well-formed entries, its length is the
total number of entries minus the number of malformed ones, and the
call as a whole never fails. -/
theorem parse_partial_corruption (s : String) (raw : RawData)
    (h : ∀ e ∈ raw.timeSeries.getD [],
      entryWellFormed e = true ∨ requiredFieldsParse e.2 = false) :
    (parse_stock_data s raw).length =
      (raw.timeSeries.getD []).length -
        ((raw.timeSeries.getD []).filter
          (fun e => !requiredFieldsParse e.2)).length ∧
    parse_stock_data s raw =
      ((raw.timeSeries.getD []).filter entryWellFormed).filterMap
        (fun e => parseDataPoint s (raw.metaData.getD []) e.1 e.2) := by
  obtain ⟨h1, h2⟩ := filterMap_parse_split s (raw.metaData.getD [])
    (raw.timeSeries.getD []) h
  constructor
  · simp only [parse_stock_data]
    omega
  · simp only [parse_stock_data]
    exact h2

/-- Witness for C3: `rawOneBad` has three entries of which one has a
non-numeric open field; parsing keeps exactly the other two. -/
theorem parse_partial_corruption_witness :
    (parse_stock_data "AAPL" rawOneBad).length = 3 - 1 :=
  (parse_partial_corruption "AAPL" rawOneBad (by decide)).1

/-- C4: with a valid key the run processes every symbol: the succeeded
counter is the sum over the input list of the per-symbol success
indicator (1 exactly when that symbol's own store call succeeded) and
the record counter is the sum of the per-symbol record contributions
(its parsed batch size on success, 0 on any failure).  Each summand
depends only on that symbol's own world, so one symbol's failure at
any stage neither terminates the run nor changes another symbol's
contribution. -/
theorem run_per_symbol_isolation (env : Env) (now : Nat)
    (t0 : List StoredRow) (api_key : String) (symbols : List String)
    (h1 : api_key ≠ "") (h2 : api_key ≠ "your_alpha_vantage_api_key_here") :
    (fetch_and_process_stock_data env now t0 api_key symbols).successful_symbols
        = (symbols.map (fun s => if symbolSucceeds env s then 1 else 0)).sum ∧
    (fetch_and_process_stock_data env now t0 api_key symbols).total_records
        = (symbols.map (fun s => symbolRecords env s)).sum := by
  have hcond : (api_key = "" || api_key == "your_alpha_vantage_api_key_here")
      = false := by
    simp [h1, h2]
  constructor
  · simp [fetch_and_process_stock_data, hcond, foldl_processSymbol_succ]
  · simp [fetch_and_process_stock_data, hcond, foldl_processSymbol_records]

/-- Witness for C4: in `envW` the symbol AAPL succeeds with one record
while MSFT hits a transport failure; the run over both still reports
AAPL's contribution and MSFT contributes zero. -/
theorem run_per_symbol_isolation_witness :
    (fetch_and_process_stock_data envW 7 [] "demo"
        ["aapl ", "MSFT"]).successful_symbols = 1 ∧
    (fetch_and_process_stock_data envW 7 [] "demo"
        ["aapl ", "MSFT"]).total_records = 1 := by
  have h := run_per_symbol_isolation envW 7 [] "demo" ["aapl ", "MSFT"]
    (by decide) (by decide)
  exact ⟨h.1.trans (by decide), h.2.trans (by decide)⟩

/-- C10: with a valid key the attempted figure of the run summary is
the length of the symbol list exactly as given, while a network call
is made only for the entries that are non-empty after trimming — so
the attempted total can count entries that were never fetched. -/
theorem run_attempted_counts_all (env : Env) (now : Nat)
    (t0 : List StoredRow) (api_key : String) (symbols : List String)
    (h1 : api_key ≠ "") (h2 : api_key ≠ "your_alpha_vantage_api_key_here") :
    (fetch_and_process_stock_data env now t0 api_key symbols).attempted =
      symbols.length ∧
    (fetch_and_process_stock_data env now t0 api_key symbols).fetched =
      symbols.filterMap (fun s =>
        if normalizeSymbol s = "" then none else some (normalizeSymbol s)) := by
  have hcond : (api_key = "" || api_key == "your_alpha_vantage_api_key_here")
      = false := by
    simp [h1, h2]
  constructor
  · simp [fetch_and_process_stock_data, hcond]
  · simp [fetch_and_process_stock_data, hcond, foldl_processSymbol_fetched]

/-- Witness for C10: a list with a whitespace-only entry reports three
attempted symbols though only two are ever fetched. -/
theorem run_attempted_counts_all_witness :
    (fetch_and_process_stock_data envW 7 [] "demo"
        ["aapl ", " ", "MSFT"]).attempted = 3 ∧
    (fetch_and_process_stock_data envW 7 [] "demo"
        ["aapl ", " ", "MSFT"]).fetched = ["AAPL", "MSFT"] := by
  have h := run_attempted_counts_all envW 7 [] "demo" ["aapl ", " ", "MSFT"]
    (by decide) (by decide)
  exact ⟨h.1.trans (by decide), h.2.trans (by decide)⟩
